import Mathlib

/-!
Shallow embedding of the git-integration module (`src-tauri/src/git.rs`) of the
repository. Subprocess calls are modelled by an environment record that fixes
the outcome of each external invocation: `Spawn` is the result of a
`Command::output()` call (`Except` for the io-error case, `Output` for a
captured exit status plus stdout/stderr). Every function of the module becomes
a pure function of that environment; functions that spawn subprocesses are
additionally instrumented with the list of commands they attempt, so that
claims about "no subprocess spawned" are statable.
-/

namespace Scratch

/-- Captured result of a finished subprocess: exit-status success flag, stdout
and stderr (the Rust code reads them through `String::from_utf8_lossy`, so both
are plain strings here). -/
structure Output where
  success : Bool
  stdout : String
  stderr : String
deriving DecidableEq, Repr

/-- Result of `Command::output()`: either an io error (its rendered message) or
a captured `Output`. -/
abbrev Spawn := Except String Output

/-- The external git commands the module can attempt, used for spawn logs. -/
inductive GitCmd where
  | branchShow | remoteList | remoteGetUrl | statusPorcelain | revList
  | addAll | commit | pushCmd | fetchQuiet | pullCmd | remoteAdd | pushUpstream
deriving DecidableEq, Repr

/-- `GitStatus` struct of git.rs (field for field). -/
structure GitStatus where
  is_repo : Bool
  has_remote : Bool
  has_upstream : Bool
  remote_url : Option String
  changed_count : Nat
  ahead_count : Int
  behind_count : Int
  current_branch : Option String
  error : Option String
deriving DecidableEq, Repr

/-- `#[derive(Default)]` for `GitStatus`: all-false / zero / `None` fields. -/
def GitStatus.default : GitStatus :=
  { is_repo := false, has_remote := false, has_upstream := false,
    remote_url := none, changed_count := 0, ahead_count := 0,
    behind_count := 0, current_branch := none, error := none }

/-- `GitResult` struct of git.rs. -/
structure GitResult where
  success : Bool
  message : Option String
  error : Option String
deriving DecidableEq, Repr

/-- `listHasPrefix hay pat` is true when `pat` is a prefix of `hay`. -/
def listHasPrefix : List Char → List Char → Bool
  | _, [] => true
  | [], _ :: _ => false
  | h :: hs, p :: ps => h = p && listHasPrefix hs ps

/-- `listHasInfix hay pat` is true when `pat` occurs contiguously in `hay`. -/
def listHasInfix (hay pat : List Char) : Bool :=
  if listHasPrefix hay pat then true
  else
    match hay with
    | [] => false
    | _ :: hs => listHasInfix hs pat

/-- Rust `str::contains(pat)`: substring test. -/
def strContains (hay pat : String) : Bool :=
  listHasInfix hay.data pat.data

/-- Rust `str::starts_with(pat)`. -/
def strStartsWith (s pat : String) : Bool :=
  listHasPrefix s.data pat.data

/-- ASCII whitespace recognizer used by trimming (space, tab, newline,
carriage return — the characters relevant to the tool's output). -/
def isWs (c : Char) : Bool :=
  c = ' ' || c = '\t' || c = '\n' || c = '\r'

/-- Rust `str::trim()`: drop whitespace from both ends. -/
def strTrim (s : String) : String :=
  String.mk (((s.data.dropWhile isWs).reverse.dropWhile isWs).reverse)

/-- Split a character list at every occurrence of `sep` (Rust
`str::split(sep: char)` semantics: the empty input yields one empty piece,
and a trailing separator yields a trailing empty piece). -/
def splitCharAux (sep : Char) : List Char → List Char → List (List Char)
  | [], acc => [acc.reverse]
  | c :: cs, acc =>
    if c = sep then acc.reverse :: splitCharAux sep cs []
    else splitCharAux sep cs (c :: acc)

/-- Rust `str::split(sep: char)` collected into a list of strings. -/
def splitChar (s : String) (sep : Char) : List String :=
  (splitCharAux sep s.data []).map String.mk

/-- Rust `str::parse::<i32>()`: optional sign, then one or more ASCII digits,
and the value must fit in the i32 range; anything else is a parse error. -/
def parseI32 (s : String) : Option Int :=
  match s.data with
  | [] => none
  | c :: rest =>
    let signed : Bool × List Char :=
      if c = '-' then (true, rest)
      else if c = '+' then (false, rest)
      else (false, c :: rest)
    if signed.2 = [] then none
    else if signed.2.all Char.isDigit then
      let n : Nat := signed.2.foldl (fun a d => a * 10 + (d.toNat - 48)) 0
      let v : Int := if signed.1 then -(n : Int) else (n : Int)
      if -(2 ^ 31) ≤ v ∧ v ≤ 2 ^ 31 - 1 then some v else none
    else none

/-- Rust `str::lines()`: split on a newline, drop the final empty piece that a
trailing newline produces, strip one trailing carriage return per line. -/
def rustLines (s : String) : List String :=
  let parts := splitChar s '\n'
  let parts := if parts.getLast? = some "" then parts.dropLast else parts
  parts.map (fun l =>
    if l.data.getLast? = some '\r' then String.mk l.data.dropLast else l)

/-- `parse_pull_error` of git.rs: ordered first-match substring
classification of pull/fetch diagnostics. -/
def parse_pull_error (stderr : String) : String :=
  if strContains stderr "CONFLICT" || strContains stderr "Merge conflict" then
    "Pull failed due to merge conflicts. Resolve conflicts manually."
  else if strContains stderr "Permission denied" || strContains stderr "publickey" then
    "Authentication failed. Check your SSH keys or credentials."
  else if strContains stderr "Could not resolve host" then
    "Could not connect to remote. Check your internet connection."
  else if strContains stderr "not possible to fast-forward" then
    "Pull failed: local and remote have diverged. Try pulling with rebase or merging manually."
  else
    strTrim stderr

/-- `parse_push_error` of git.rs: ordered first-match substring
classification of push diagnostics. -/
def parse_push_error (stderr : String) : String :=
  if strContains stderr "Permission denied" || strContains stderr "publickey" then
    "Authentication failed. Check your SSH keys or credentials."
  else if strContains stderr "Repository not found" || strContains stderr "does not exist" then
    "Remote repository not found. Check the URL."
  else if strContains stderr "Could not resolve host" then
    "Could not connect to remote. Check your internet connection."
  else
    strTrim stderr

/-- `is_valid_remote_url` of git.rs: the url is trimmed, then checked for one
of the accepted scheme prefixes. -/
def is_valid_remote_url (url : String) : Bool :=
  let u := strTrim url
  strStartsWith u "git@" || strStartsWith u "https://" || strStartsWith u "http://"

/-- Environment for the read path of the module: the filesystem fact probed by
`is_git_repo` (existence of the `.git` entry under the path) and the outcome of
each subprocess `get_status` / `get_remote_url` may run. -/
structure StatusEnv where
  dotGitExists : Bool
  branchShow : Spawn
  remoteList : Spawn
  remoteGetUrl : Spawn
  statusPorcelain : Spawn
  revList : Spawn

/-- `is_git_repo` of git.rs: `path.join(".git").exists()`. -/
def is_git_repo (env : StatusEnv) : Bool :=
  env.dotGitExists

/-- Step 2 of `get_status`: the trimmed current branch, absent on query
failure or empty output. -/
def currentBranchOf (env : StatusEnv) : Option String :=
  match env.branchShow with
  | .ok o =>
    if o.success then
      let branch := strTrim o.stdout
      if branch ≠ "" then some branch else none
    else none
  | .error _ => none

/-- Step 3 of `get_status`: the remote-list query succeeded and its trimmed
output is non-empty. -/
def hasRemoteOf (env : StatusEnv) : Bool :=
  match env.remoteList with
  | .ok o => o.success && strTrim o.stdout ≠ ""
  | .error _ => false

/-- `get_remote_url` of git.rs: `None` unless the path is a repository and the
`remote get-url origin` query succeeds, in which case the trimmed stdout. -/
def get_remote_url (env : StatusEnv) : Option String :=
  if !is_git_repo env then none
  else
    match env.remoteGetUrl with
    | .ok o => if o.success then some (strTrim o.stdout) else none
    | .error _ => none

/-- Step 4 of `get_status`: the number of non-empty lines of
`status --porcelain`, zero when that query fails. -/
def changedCountOf (env : StatusEnv) : Nat :=
  match env.statusPorcelain with
  | .ok o =>
    if o.success then ((rustLines o.stdout).filter (fun l => !l.isEmpty)).length
    else 0
  | .error _ => 0

/-- The three ahead/behind fields filled by step 5 of `get_status`. -/
structure UpInfo where
  hasUp : Bool
  ahead : Int
  behind : Int
deriving DecidableEq, Repr

/-- Step 5 of `get_status`: run only when a remote exists and a branch name was
found. On success the output is split on a tab; exactly two fields parse into
(behind, ahead), each falling back to 0. On a non-zero exit only the recognized
"no upstream" / "unknown revision" diagnostics set the −1 sentinel; a spawn
error also sets it; everything else leaves the 0 defaults. -/
def upstreamOf (env : StatusEnv) : UpInfo :=
  if hasRemoteOf env && (currentBranchOf env).isSome then
    match env.revList with
    | .ok o =>
      if o.success then
        let parts := splitChar (strTrim o.stdout) '\t'
        if parts.length = 2 then
          { hasUp := true,
            behind := (parseI32 (parts.getD 0 "")).getD 0,
            ahead := (parseI32 (parts.getD 1 "")).getD 0 }
        else
          { hasUp := true, ahead := 0, behind := 0 }
      else
        if strContains o.stderr "no upstream" || strContains o.stderr "unknown revision" then
          { hasUp := false, ahead := -1, behind := -1 }
        else
          { hasUp := false, ahead := 0, behind := 0 }
    | .error _ => { hasUp := false, ahead := -1, behind := -1 }
  else
    { hasUp := false, ahead := 0, behind := 0 }

/-- `get_status` of git.rs, as the merge of its independent field-fill steps. -/
def get_status (env : StatusEnv) : GitStatus :=
  if !is_git_repo env then GitStatus.default
  else
    let up := upstreamOf env
    { is_repo := true,
      has_remote := hasRemoteOf env,
      has_upstream := up.hasUp,
      remote_url := if hasRemoteOf env then get_remote_url env else none,
      changed_count := changedCountOf env,
      ahead_count := up.ahead,
      behind_count := up.behind,
      current_branch := currentBranchOf env,
      error := none }

/-- The subprocesses `get_status` attempts, in order: nothing for a
non-repository; otherwise branch query, remote list, the remote-url query when
a remote exists, the porcelain status, and the ahead/behind query when both a
remote and a branch are present. -/
def get_statusLog (env : StatusEnv) : List GitCmd :=
  if !is_git_repo env then []
  else
    [GitCmd.branchShow, GitCmd.remoteList] ++
    (if hasRemoteOf env then [GitCmd.remoteGetUrl] else []) ++
    [GitCmd.statusPorcelain] ++
    (if hasRemoteOf env && (currentBranchOf env).isSome then [GitCmd.revList] else [])

/-- Environment for `commit_all`: the two subprocesses it may run. -/
structure CommitEnv where
  addAll : Spawn
  commit : Spawn

/-- `commit_all` of git.rs, instrumented with the commands it attempts.
Staging failure (spawn error or non-zero exit) returns immediately without
attempting the commit; a commit failure whose stderr contains
"nothing to commit" is reclassified as success. -/
def commit_allT (env : CommitEnv) (message : String) : GitResult × List GitCmd :=
  match env.addAll with
  | .error e =>
    ({ success := false, message := none,
       error := some ("Failed to run git add: " ++ e) }, [GitCmd.addAll])
  | .ok stage =>
    if !stage.success then
      ({ success := false, message := none,
         error := some ("Failed to stage changes: " ++ stage.stderr ++
           (if stage.stdout.isEmpty then "" else "\n" ++ stage.stdout)) },
       [GitCmd.addAll])
    else
      match env.commit with
      | .ok o =>
        if o.success then
          ({ success := true, message := some "Changes committed", error := none },
           [GitCmd.addAll, GitCmd.commit])
        else if strContains o.stderr "nothing to commit" then
          ({ success := true, message := some "Nothing to commit", error := none },
           [GitCmd.addAll, GitCmd.commit])
        else
          ({ success := false, message := none, error := some o.stderr },
           [GitCmd.addAll, GitCmd.commit])
      | .error e =>
        ({ success := false, message := none,
           error := some ("Failed to commit: " ++ e) },
         [GitCmd.addAll, GitCmd.commit])

/-- `commit_all` of git.rs (the returned `GitResult`; `message` is forwarded to
the commit subprocess and does not otherwise influence the result). -/
def commit_all (env : CommitEnv) (message : String) : GitResult :=
  (commit_allT env message).1

/-- `push` of git.rs. -/
def push (sp : Spawn) : GitResult :=
  match sp with
  | .ok o =>
    if o.success then
      { success := true, message := some "Pushed successfully", error := none }
    else
      { success := false, message := none, error := some (parse_push_error o.stderr) }
  | .error e =>
    { success := false, message := none, error := some ("Failed to push: " ++ e) }

/-- `fetch` of git.rs. -/
def fetch (sp : Spawn) : GitResult :=
  match sp with
  | .ok o =>
    if o.success then
      { success := true, message := some "Fetched successfully", error := none }
    else
      { success := false, message := none, error := some (parse_pull_error o.stderr) }
  | .error e =>
    { success := false, message := none, error := some ("Failed to fetch: " ++ e) }

/-- `pull` of git.rs: an "Already up to date" stdout marker distinguishes the
success message, and a failure classifies stdout and stderr combined. -/
def pull (sp : Spawn) : GitResult :=
  match sp with
  | .ok o =>
    if o.success then
      { success := true,
        message := some (if strContains o.stdout "Already up to date"
          then "Already up to date" else "Pulled latest changes"),
        error := none }
    else
      { success := false, message := none,
        error := some (parse_pull_error (o.stdout ++ o.stderr)) }
  | .error e =>
    { success := false, message := none, error := some ("Failed to pull: " ++ e) }

/-- `add_remote` of git.rs, instrumented with the commands it attempts: url
validation happens before any spawn, and an "already exists" diagnostic is
replaced by a fixed message. -/
def add_remoteT (sp : Spawn) (url : String) : GitResult × List GitCmd :=
  if !is_valid_remote_url url then
    ({ success := false, message := none,
       error := some "Invalid remote URL format. URL must start with https://, http://, or git@" },
     [])
  else
    match sp with
    | .ok o =>
      if o.success then
        ({ success := true, message := some "Remote added successfully", error := none },
         [GitCmd.remoteAdd])
      else if strContains o.stderr "already exists" then
        ({ success := false, message := none,
           error := some "Remote \x27origin\x27 already exists" }, [GitCmd.remoteAdd])
      else
        ({ success := false, message := none, error := some o.stderr }, [GitCmd.remoteAdd])
    | .error e =>
      ({ success := false, message := none,
         error := some ("Failed to add remote: " ++ e) }, [GitCmd.remoteAdd])

/-- `add_remote` of git.rs (the returned `GitResult`). -/
def add_remote (sp : Spawn) (url : String) : GitResult :=
  (add_remoteT sp url).1

/-- `push_with_upstream` of git.rs. -/
def push_with_upstream (sp : Spawn) (branch : String) : GitResult :=
  match sp with
  | .ok o =>
    if o.success then
      { success := true, message := some ("Pushed and tracking origin/" ++ branch),
        error := none }
    else
      { success := false, message := none, error := some (parse_push_error o.stderr) }
  | .error e =>
    { success := false, message := none, error := some ("Failed to push: " ++ e) }

/-- A finished subprocess with the given success flag, stdout and stderr. -/
def okOut (success : Bool) (out err : String) : Spawn :=
  Except.ok (Output.mk success out err)

/-- A path without version-control metadata (all queries would succeed, but
`get_status` must never reach them). -/
def envNonRepo : StatusEnv :=
  { dotGitExists := false,
    branchShow := okOut true "main\n" "",
    remoteList := okOut true "origin\n" "",
    remoteGetUrl := okOut true "https://h/r.git\n" "",
    statusPorcelain := okOut true "" "",
    revList := okOut true "0\t0\n" "" }

/-- A repository on branch `main` with no remote configured. -/
def envNoRemote : StatusEnv :=
  { dotGitExists := true,
    branchShow := okOut true "main\n" "",
    remoteList := okOut true "" "",
    remoteGetUrl := okOut true "" "",
    statusPorcelain := okOut true "" "",
    revList := okOut true "0\t0\n" "" }

/-- A repository with a remote and branch whose ahead/behind query exits
non-zero with a diagnostic that is neither "no upstream" nor
"unknown revision". -/
def envRevFail : StatusEnv :=
  { dotGitExists := true,
    branchShow := okOut true "main\n" "",
    remoteList := okOut true "origin\n" "",
    remoteGetUrl := okOut true "https://h/r.git\n" "",
    statusPorcelain := okOut true " M a\n" "",
    revList := okOut false "" "fatal: could not lock index" }

/-- A repository whose ahead/behind query succeeds with behind 1, ahead 2. -/
def envUpstream : StatusEnv :=
  { dotGitExists := true,
    branchShow := okOut true "main\n" "",
    remoteList := okOut true "origin\n" "",
    remoteGetUrl := okOut true "https://h/r.git\n" "",
    statusPorcelain := okOut true "" "",
    revList := okOut true "1\t2\n" "" }

/-- A repository whose ahead/behind query succeeds with malformed output
(no tab separator). -/
def envBadCounts : StatusEnv :=
  { dotGitExists := true,
    branchShow := okOut true "main\n" "",
    remoteList := okOut true "origin\n" "",
    remoteGetUrl := okOut true "https://h/r.git\n" "",
    statusPorcelain := okOut true "" "",
    revList := okOut true "garbage" "" }

/-- A commit environment where staging succeeds and the commit exits non-zero
with the nothing-to-commit diagnostic. -/
def commitEnvNothing : CommitEnv :=
  { addAll := okOut true "" "",
    commit := okOut false "" "nothing to commit, working tree clean" }

/-- A commit environment where staging itself exits non-zero. -/
def commitEnvStageFail : CommitEnv :=
  { addAll := okOut false "out" "fatal: pathspec error",
    commit := okOut true "" "" }

/-- Environment assumption for the count query: when the ahead/behind
subprocess succeeds, the two tab-fields of its trimmed output do not parse to
negative numbers (git prints non-negative counts). -/
def revListNonneg (env : StatusEnv) : Bool :=
  match env.revList with
  | .ok o =>
    !o.success ||
      (decide (0 ≤ (parseI32 ((splitChar (strTrim o.stdout) '\t').getD 0 "")).getD 0) &&
       decide (0 ≤ (parseI32 ((splitChar (strTrim o.stdout) '\t').getD 1 "")).getD 0))
  | .error _ => true

/-- The ahead/behind query was attempted and failed (spawn error or non-zero
exit). -/
def revListFailed (env : StatusEnv) : Bool :=
  match env.revList with
  | .ok o => !o.success
  | .error _ => true

/-- The failed ahead/behind query carries one of the two recognized
no-upstream diagnostics (a spawn error counts as recognized, since the source
sets the sentinel there too). -/
def revListNoUpstreamDiag (env : StatusEnv) : Bool :=
  match env.revList with
  | .ok o => strContains o.stderr "no upstream" || strContains o.stderr "unknown revision"
  | .error _ => true

/-- The ahead/behind fields of `get_status` are the `upstreamOf` fields on a
repository path, and its `error` field is never set. -/
theorem get_status_fields (env : StatusEnv) (h : is_git_repo env = true) :
    (get_status env).has_upstream = (upstreamOf env).hasUp ∧
    (get_status env).ahead_count = (upstreamOf env).ahead ∧
    (get_status env).behind_count = (upstreamOf env).behind ∧
    (get_status env).error = none := by
  unfold get_status
  simp [h]

/-- Reduction of `revListNonneg` at a finished count query. -/
theorem revListNonneg_ok (env : StatusEnv) (o : Output)
    (heq : env.revList = Except.ok o) :
    revListNonneg env =
      (!o.success ||
        (decide (0 ≤ (parseI32 ((splitChar (strTrim o.stdout) '\t').getD 0 "")).getD 0) &&
         decide (0 ≤ (parseI32 ((splitChar (strTrim o.stdout) '\t').getD 1 "")).getD 0))) := by
  unfold revListNonneg
  rw [heq]

/-- Reduction of `revListFailed` at a finished count query. -/
theorem revListFailed_ok (env : StatusEnv) (o : Output)
    (heq : env.revList = Except.ok o) :
    revListFailed env = !o.success := by
  unfold revListFailed
  rw [heq]

/-- Reduction of `revListNoUpstreamDiag` at a finished count query. -/
theorem revListNoUpstreamDiag_ok (env : StatusEnv) (o : Output)
    (heq : env.revList = Except.ok o) :
    revListNoUpstreamDiag env =
      (strContains o.stderr "no upstream" || strContains o.stderr "unknown revision") := by
  unfold revListNoUpstreamDiag
  rw [heq]

/-- Reduction of `revListNoUpstreamDiag` at a spawn error. -/
theorem revListNoUpstreamDiag_error (env : StatusEnv) (e : String)
    (heq : env.revList = Except.error e) :
    revListNoUpstreamDiag env = true := by
  unfold revListNoUpstreamDiag
  rw [heq]

/-- Reduction of the upstream step when the query was attempted and the
subprocess finished. -/
theorem upstreamOf_cond_ok (env : StatusEnv) (o : Output)
    (hcond : (hasRemoteOf env && (currentBranchOf env).isSome) = true)
    (heq : env.revList = Except.ok o) :
    upstreamOf env =
      (if o.success then
        (if (splitChar (strTrim o.stdout) '\t').length = 2 then
          { hasUp := true,
            behind := (parseI32 ((splitChar (strTrim o.stdout) '\t').getD 0 "")).getD 0,
            ahead := (parseI32 ((splitChar (strTrim o.stdout) '\t').getD 1 "")).getD 0 }
         else { hasUp := true, ahead := 0, behind := 0 })
       else if strContains o.stderr "no upstream" || strContains o.stderr "unknown revision" then
         { hasUp := false, ahead := -1, behind := -1 }
       else { hasUp := false, ahead := 0, behind := 0 }) := by
  unfold upstreamOf
  rw [if_pos hcond, heq]

/-- Reduction of the upstream step when the query was attempted and the spawn
failed. -/
theorem upstreamOf_cond_error (env : StatusEnv) (e : String)
    (hcond : (hasRemoteOf env && (currentBranchOf env).isSome) = true)
    (heq : env.revList = Except.error e) :
    upstreamOf env = { hasUp := false, ahead := -1, behind := -1 } := by
  unfold upstreamOf
  rw [if_pos hcond, heq]

/-- Reduction of the upstream step when the query is skipped. -/
theorem upstreamOf_skip (env : StatusEnv)
    (hcond : (hasRemoteOf env && (currentBranchOf env).isSome) = false) :
    upstreamOf env = { hasUp := false, ahead := 0, behind := 0 } := by
  unfold upstreamOf
  rw [hcond]
  rfl

/-- Case analysis of the upstream step: under the non-negative-counts
assumption, tracking implies non-negative counts, and no tracking means either
both sentinels or both zero defaults. -/
theorem upstreamOf_spec (env : StatusEnv) (h : revListNonneg env = true) :
    ((upstreamOf env).hasUp = true → 0 ≤ (upstreamOf env).ahead ∧ 0 ≤ (upstreamOf env).behind) ∧
    ((upstreamOf env).hasUp = false →
      ((upstreamOf env).ahead = -1 ∧ (upstreamOf env).behind = -1) ∨
      ((upstreamOf env).ahead = 0 ∧ (upstreamOf env).behind = 0)) := by
  by_cases hcond : (hasRemoteOf env && (currentBranchOf env).isSome) = true
  · cases heq : env.revList with
    | ok o =>
      rw [upstreamOf_cond_ok env o hcond heq]
      rw [revListNonneg_ok env o heq] at h
      by_cases hs : o.success = true
      · rw [if_pos hs]
        simp only [hs, Bool.not_true, Bool.false_or, Bool.and_eq_true,
          decide_eq_true_eq] at h
        by_cases hlen : (splitChar (strTrim o.stdout) '\t').length = 2
        · rw [if_pos hlen]
          exact ⟨fun _ => ⟨h.2, h.1⟩, fun hc => absurd hc (by simp)⟩
        · rw [if_neg hlen]
          exact ⟨fun _ => ⟨le_refl 0, le_refl 0⟩, fun hc => absurd hc (by simp)⟩
      · rw [if_neg hs]
        by_cases hd : (strContains o.stderr "no upstream" ||
            strContains o.stderr "unknown revision") = true
        · rw [if_pos hd]
          exact ⟨fun hc => absurd hc (by simp), fun _ => Or.inl ⟨rfl, rfl⟩⟩
        · rw [if_neg hd]
          exact ⟨fun hc => absurd hc (by simp), fun _ => Or.inr ⟨rfl, rfl⟩⟩
    | error e =>
      rw [upstreamOf_cond_error env e hcond heq]
      exact ⟨fun hc => absurd hc (by simp), fun _ => Or.inl ⟨rfl, rfl⟩⟩
  · rw [Bool.not_eq_true] at hcond
    rw [upstreamOf_skip env hcond]
    exact ⟨fun hc => absurd hc (by simp), fun _ => Or.inr ⟨rfl, rfl⟩⟩

/-- C1: the claim as stated is false on the code: a repository with a branch
but no remote yields `has_upstream = false` with both counts still 0, not −1
(and `ahead_count ≥ 0` there despite `has_upstream = false`). -/
theorem c1_counterexample :
    (get_status envNoRemote).has_upstream = false ∧
    ¬ (((get_status envNoRemote).has_upstream = false →
          (get_status envNoRemote).ahead_count = -1 ∧
          (get_status envNoRemote).behind_count = -1) ∧
       (0 ≤ (get_status envNoRemote).ahead_count ↔
          (get_status envNoRemote).has_upstream = true)) := by decide

/-- C1 (amended): assuming the count query prints non-negative numbers, a
snapshot with upstream tracking has both counts ≥ 0; without tracking the
counts are either both −1 (sentinel) or both 0 (query skipped, or failed with
an unrecognized diagnostic); and a −1 count occurs only without tracking. -/
theorem c1_theorem (env : StatusEnv) (h : revListNonneg env = true) :
    ((get_status env).has_upstream = true →
      0 ≤ (get_status env).ahead_count ∧ 0 ≤ (get_status env).behind_count) ∧
    ((get_status env).has_upstream = false →
      ((get_status env).ahead_count = -1 ∧ (get_status env).behind_count = -1) ∨
      ((get_status env).ahead_count = 0 ∧ (get_status env).behind_count = 0)) ∧
    (((get_status env).ahead_count = -1 ∨ (get_status env).behind_count = -1) →
      (get_status env).has_upstream = false) := by
  by_cases hrepo : is_git_repo env = true
  · obtain ⟨h1, h2, h3, _⟩ := get_status_fields env hrepo
    rw [h1, h2, h3]
    obtain ⟨hup, hdown⟩ := upstreamOf_spec env h
    refine ⟨hup, hdown, ?_⟩
    intro hdisj
    by_contra hne
    rw [Bool.not_eq_false] at hne
    obtain ⟨ha, hb⟩ := hup hne
    rcases hdisj with hd | hd <;> omega
  · rw [Bool.not_eq_true] at hrepo
    unfold get_status
    rw [is_git_repo] at hrepo
    simp [is_git_repo, hrepo, GitStatus.default]

/-- C1 witness: a working upstream environment satisfies the hypothesis and
yields non-negative counts. -/
theorem c1_witness :
    0 ≤ (get_status envUpstream).ahead_count ∧
    0 ≤ (get_status envUpstream).behind_count :=
  (c1_theorem envUpstream (by decide)).1 (by decide)

/-- C2: a non-repository path yields the all-default snapshot and no
subprocess is attempted. -/
theorem c2_theorem (env : StatusEnv) (h : is_git_repo env = false) :
    get_status env = GitStatus.default ∧ get_statusLog env = [] := by
  unfold get_status get_statusLog
  simp [h]

/-- C2 witness at a concrete non-repository environment. -/
theorem c2_witness :
    get_status envNonRepo = GitStatus.default ∧ get_statusLog envNonRepo = [] :=
  c2_theorem envNonRepo (by decide)

/-- C3: the claim as stated is false on the code: an ahead/behind query that
fails with an unrecognized diagnostic leaves both counts at 0, not the −1
sentinel (tracking is still reported false). -/
theorem c3_counterexample :
    revListFailed envRevFail = true ∧
    revListNoUpstreamDiag envRevFail = false ∧
    (get_status envRevFail).has_upstream = false ∧
    ¬ ((get_status envRevFail).ahead_count = -1 ∧
       (get_status envRevFail).behind_count = -1) := by decide

/-- Case analysis of the upstream step when the attempted query failed: no
tracking, and the sentinel exactly for recognized diagnostics or spawn
errors. -/
theorem upstreamOf_failed (env : StatusEnv)
    (hcond : (hasRemoteOf env && (currentBranchOf env).isSome) = true)
    (hfail : revListFailed env = true) :
    (upstreamOf env).hasUp = false ∧
    (revListNoUpstreamDiag env = true →
      (upstreamOf env).ahead = -1 ∧ (upstreamOf env).behind = -1) ∧
    (revListNoUpstreamDiag env = false →
      (upstreamOf env).ahead = 0 ∧ (upstreamOf env).behind = 0) := by
  cases heq : env.revList with
  | ok o =>
    rw [revListFailed_ok env o heq] at hfail
    simp only [Bool.not_eq_true'] at hfail
    rw [upstreamOf_cond_ok env o hcond heq, revListNoUpstreamDiag_ok env o heq,
      if_neg (by rw [hfail]; exact Bool.false_ne_true)]
    by_cases hd : (strContains o.stderr "no upstream" ||
        strContains o.stderr "unknown revision") = true
    · rw [if_pos hd]
      refine ⟨rfl, fun _ => ⟨rfl, rfl⟩, fun hfalse => ?_⟩
      rw [hd] at hfalse
      exact absurd hfalse (by simp)
    · rw [if_neg hd]
      rw [Bool.not_eq_true] at hd
      refine ⟨rfl, fun htrue => ?_, fun _ => ⟨rfl, rfl⟩⟩
      rw [hd] at htrue
      exact absurd htrue (by simp)
  | error e =>
    rw [upstreamOf_cond_error env e hcond heq, revListNoUpstreamDiag_error env e heq]
    exact ⟨rfl, fun _ => ⟨rfl, rfl⟩, fun hfalse => absurd hfalse (by simp)⟩

/-- C3 (amended): every failure of the attempted ahead/behind query leaves
`has_upstream = false` and surfaces no hard error, but the −1 sentinel is set
only when the spawn failed or the diagnostic contains "no upstream" or
"unknown revision"; any other failure leaves both counts at their 0 default. -/
theorem c3_theorem (env : StatusEnv)
    (hrepo : is_git_repo env = true)
    (hrem : hasRemoteOf env = true)
    (hbr : (currentBranchOf env).isSome = true)
    (hfail : revListFailed env = true) :
    (get_status env).has_upstream = false ∧
    (get_status env).error = none ∧
    (revListNoUpstreamDiag env = true →
      (get_status env).ahead_count = -1 ∧ (get_status env).behind_count = -1) ∧
    (revListNoUpstreamDiag env = false →
      (get_status env).ahead_count = 0 ∧ (get_status env).behind_count = 0) := by
  obtain ⟨h1, h2, h3, h4⟩ := get_status_fields env hrepo
  rw [h1, h2, h3, h4]
  obtain ⟨g1, g2, g3⟩ := upstreamOf_failed env (by rw [hrem, hbr]; rfl) hfail
  exact ⟨g1, rfl, g2, g3⟩

/-- C3 witness at the unrecognized-diagnostic environment. -/
theorem c3_witness :
    (get_status envRevFail).has_upstream = false ∧
    (get_status envRevFail).ahead_count = 0 ∧
    (get_status envRevFail).behind_count = 0 := by
  have h := c3_theorem envRevFail (by decide) (by decide) (by decide) (by decide)
  exact ⟨h.1, h.2.2.2 (by decide)⟩

/-- C4: staging succeeded and the commit step exited non-zero with the
nothing-to-commit marker in its stderr: the outcome is success with message
"Nothing to commit". -/
theorem c4_theorem (env : CommitEnv) (stage o : Output) (msg : String)
    (hstage : env.addAll = Except.ok stage) (hss : stage.success = true)
    (hc : env.commit = Except.ok o) (hcs : o.success = false)
    (hmark : strContains o.stderr "nothing to commit" = true) :
    commit_all env msg =
      { success := true, message := some "Nothing to commit", error := none } := by
  unfold commit_all commit_allT
  rw [hstage, hc]
  simp [hss, hcs, hmark]

/-- C4 witness at a concrete nothing-to-commit environment. -/
theorem c4_witness :
    commit_all commitEnvNothing "m" =
      { success := true, message := some "Nothing to commit", error := none } :=
  c4_theorem commitEnvNothing (Output.mk true "" "")
    (Output.mk false "" "nothing to commit, working tree clean") "m"
    rfl rfl rfl rfl (by decide)

/-- C5: the pull classifier is an ordered first-match ladder (conflict, then
authentication, then host-resolution, then diverged), so a text with both a
conflict and an authentication marker gets the conflict message, and a text
matching no category is returned trimmed. -/
theorem c5_theorem (s : String) :
    ((strContains s "CONFLICT" = true ∨ strContains s "Merge conflict" = true) →
      parse_pull_error s =
        "Pull failed due to merge conflicts. Resolve conflicts manually.") ∧
    (strContains s "CONFLICT" = false → strContains s "Merge conflict" = false →
     (strContains s "Permission denied" = true ∨ strContains s "publickey" = true) →
      parse_pull_error s =
        "Authentication failed. Check your SSH keys or credentials.") ∧
    (strContains s "CONFLICT" = false → strContains s "Merge conflict" = false →
     strContains s "Permission denied" = false → strContains s "publickey" = false →
     strContains s "Could not resolve host" = true →
      parse_pull_error s =
        "Could not connect to remote. Check your internet connection.") ∧
    (strContains s "CONFLICT" = false → strContains s "Merge conflict" = false →
     strContains s "Permission denied" = false → strContains s "publickey" = false →
     strContains s "Could not resolve host" = false →
     strContains s "not possible to fast-forward" = true →
      parse_pull_error s =
        "Pull failed: local and remote have diverged. Try pulling with rebase or merging manually.") ∧
    (strContains s "CONFLICT" = false → strContains s "Merge conflict" = false →
     strContains s "Permission denied" = false → strContains s "publickey" = false →
     strContains s "Could not resolve host" = false →
     strContains s "not possible to fast-forward" = false →
      parse_pull_error s = strTrim s) := by
  unfold parse_pull_error
  refine ⟨?_, ?_, ?_, ?_, ?_⟩
  · intro h1
    rcases h1 with h | h <;> rw [if_pos (by rw [h]; simp)]
  · intro h1 h2 h3
    rw [if_neg (by rw [h1, h2]; simp)]
    rcases h3 with h | h <;> rw [if_pos (by rw [h]; simp)]
  · intro h1 h2 h3 h4 h5
    rw [if_neg (by rw [h1, h2]; simp), if_neg (by rw [h3, h4]; simp), if_pos h5]
  · intro h1 h2 h3 h4 h5 h6
    rw [if_neg (by rw [h1, h2]; simp), if_neg (by rw [h3, h4]; simp),
      if_neg (by rw [h5]; simp), if_pos h6]
  · intro h1 h2 h3 h4 h5 h6
    rw [if_neg (by rw [h1, h2]; simp), if_neg (by rw [h3, h4]; simp),
      if_neg (by rw [h5]; simp), if_neg (by rw [h6]; simp)]

/-- A diagnostic carrying both a merge-conflict and an authentication
marker. -/
def pullBothMarkers : String := "CONFLICT: Permission denied (publickey)"

/-- A diagnostic matching no pull category. -/
def pullUnclassified : String := " some odd failure "

/-- C5 witness: a text with both a conflict and an authentication marker gets
the conflict message, and an unclassified text comes back trimmed. -/
theorem c5_witness :
    parse_pull_error pullBothMarkers =
      "Pull failed due to merge conflicts. Resolve conflicts manually." ∧
    parse_pull_error pullUnclassified = strTrim pullUnclassified :=
  ⟨(c5_theorem pullBothMarkers).1 (Or.inl (by decide)),
   (c5_theorem pullUnclassified).2.2.2.2 (by decide) (by decide) (by decide)
     (by decide) (by decide) (by decide)⟩

/-- A terminal outcome populates exactly one of `message` / `error`, matching
the `success` flag. -/
def exclusiveOutcome (r : GitResult) : Prop :=
  (r.success = true ∧ r.message.isSome = true ∧ r.error = none) ∨
  (r.success = false ∧ r.message = none ∧ r.error.isSome = true)

/-- C6: every outcome of the six mutating operations populates exactly one of
`message` (success) and `error` (failure), over every environment and
argument. -/
theorem c6_theorem (ce : CommitEnv) (msg : String) (s1 s2 s3 s4 s5 : Spawn)
    (branch url : String) :
    exclusiveOutcome (commit_all ce msg) ∧ exclusiveOutcome (fetch s1) ∧
    exclusiveOutcome (pull s2) ∧ exclusiveOutcome (push s3) ∧
    exclusiveOutcome (push_with_upstream s4 branch) ∧
    exclusiveOutcome (add_remote s5 url) := by
  refine ⟨?_, ?_, ?_, ?_, ?_, ?_⟩
  · unfold exclusiveOutcome commit_all commit_allT
    rcases hA : ce.addAll with e | stage
    · simp
    · rcases hC : ce.commit with e | o
      · by_cases hs : stage.success = true <;> simp [hs]
      · by_cases hs : stage.success = true <;> by_cases ho : o.success = true <;>
          by_cases hm : strContains o.stderr "nothing to commit" = true <;>
          simp [hs, ho, hm]
  · unfold exclusiveOutcome fetch
    rcases s1 with e | o
    · simp
    · by_cases h : o.success = true <;> simp [h]
  · unfold exclusiveOutcome pull
    rcases s2 with e | o
    · simp
    · by_cases h : o.success = true <;> simp [h]
  · unfold exclusiveOutcome push
    rcases s3 with e | o
    · simp
    · by_cases h : o.success = true <;> simp [h]
  · unfold exclusiveOutcome push_with_upstream
    rcases s4 with e | o
    · simp
    · by_cases h : o.success = true <;> simp [h]
  · unfold exclusiveOutcome add_remote add_remoteT
    by_cases hv : is_valid_remote_url url = true <;>
      rcases s5 with e | o
    · simp [hv]
    · by_cases h : o.success = true <;>
        by_cases h2 : strContains o.stderr "already exists" = true <;>
        simp [hv, h, h2]
    · simp [hv]
    · by_cases h : o.success = true <;>
        by_cases h2 : strContains o.stderr "already exists" = true <;>
        simp [hv, h, h2]

/-- Unfolding of the url validator without its local binding. -/
theorem is_valid_remote_url_eq (url : String) :
    is_valid_remote_url url =
      (strStartsWith (strTrim url) "git@" || strStartsWith (strTrim url) "https://" ||
       strStartsWith (strTrim url) "http://") := rfl

/-- C7: the claim as stated is false on the code: a url with leading
whitespace does not start with any accepted prefix, yet `add_remote` trims it
first, spawns the subprocess and succeeds. -/
theorem c7_counterexample :
    (strStartsWith " https://example.com" "https://" = false ∧
     strStartsWith " https://example.com" "http://" = false ∧
     strStartsWith " https://example.com" "git@" = false) ∧
    (add_remoteT (okOut true "" "") " https://example.com").2 = [GitCmd.remoteAdd] ∧
    (add_remoteT (okOut true "" "") " https://example.com").1.success = true := by decide

/-- C7 (amended): validation applies to the trimmed url: when the trimmed url
starts with none of the accepted prefixes, `add_remote` fails fast with the
fixed validation message and spawns nothing; when it starts with one of them,
the external tool is invoked. -/
theorem c7_theorem (sp : Spawn) (url : String) :
    ((strStartsWith (strTrim url) "https://" = false ∧
      strStartsWith (strTrim url) "http://" = false ∧
      strStartsWith (strTrim url) "git@" = false) →
      add_remoteT sp url =
        ({ success := false, message := none,
           error := some "Invalid remote URL format. URL must start with https://, http://, or git@" },
         [])) ∧
    ((strStartsWith (strTrim url) "https://" = true ∨
      strStartsWith (strTrim url) "http://" = true ∨
      strStartsWith (strTrim url) "git@" = true) →
      (add_remoteT sp url).2 = [GitCmd.remoteAdd]) := by
  constructor
  · rintro ⟨h1, h2, h3⟩
    have hv : is_valid_remote_url url = false := by
      rw [is_valid_remote_url_eq, h1, h2, h3]
      rfl
    unfold add_remoteT
    simp [hv]
  · intro h
    have hv : is_valid_remote_url url = true := by
      rw [is_valid_remote_url_eq]
      rcases h with h | h | h <;> rw [h] <;> simp
    unfold add_remoteT
    simp only [hv, Bool.not_true, Bool.false_eq_true, if_false]
    rcases sp with e | o
    · rfl
    · by_cases hs : o.success = true <;>
        by_cases h2 : strContains o.stderr "already exists" = true <;>
        simp [hs, h2]

/-- A url with a scheme outside the accepted set. -/
def ftpUrl : String := "ftp://example.com/r.git"

/-- A url with an accepted scheme. -/
def httpsUrl : String := "https://example.com/r.git"

/-- C7 witness: an ftp url fails fast with no spawned command; an https url
reaches the external tool. -/
theorem c7_witness :
    add_remoteT (okOut true "" "") ftpUrl =
      ({ success := false, message := none,
         error := some "Invalid remote URL format. URL must start with https://, http://, or git@" },
       []) ∧
    (add_remoteT (okOut true "" "") httpsUrl).2 = [GitCmd.remoteAdd] :=
  ⟨(c7_theorem (okOut true "" "") ftpUrl).1
     ⟨by decide, by decide, by decide⟩,
   (c7_theorem (okOut true "" "") httpsUrl).2 (Or.inl (by decide))⟩

/-- C8: when staging exits non-zero, `commit_all` fails immediately with the
staging stderr (stdout appended after a newline when non-empty) and never
attempts the commit subprocess. -/
theorem c8_theorem (env : CommitEnv) (stage : Output) (msg : String)
    (hst : env.addAll = Except.ok stage) (hfail : stage.success = false) :
    commit_allT env msg =
      ({ success := false, message := none,
         error := some ("Failed to stage changes: " ++ stage.stderr ++
           (if stage.stdout.isEmpty then "" else "\n" ++ stage.stdout)) },
       [GitCmd.addAll]) := by
  unfold commit_allT
  rw [hst]
  simp [hfail]

/-- C8 witness: a concrete staging failure returns the combined diagnostic and
logs only the staging command. -/
theorem c8_witness :
    commit_allT commitEnvStageFail "m" =
      ({ success := false, message := none,
         error := some "Failed to stage changes: fatal: pathspec error\nout" },
       [GitCmd.addAll]) :=
  (c8_theorem commitEnvStageFail (Output.mk false "out" "fatal: pathspec error") "m"
    rfl rfl).trans (by decide)

/-- C9: the push classifier checks authentication, then repository-not-found,
then host-resolution, falling back to the trimmed text; and the concrete
host-resolution diagnostic maps to the fixed network message. -/
theorem c9_theorem :
    (∀ s : String,
      ((strContains s "Permission denied" = true ∨ strContains s "publickey" = true) →
        parse_push_error s =
          "Authentication failed. Check your SSH keys or credentials.") ∧
      (strContains s "Permission denied" = false → strContains s "publickey" = false →
       (strContains s "Repository not found" = true ∨ strContains s "does not exist" = true) →
        parse_push_error s = "Remote repository not found. Check the URL.") ∧
      (strContains s "Permission denied" = false → strContains s "publickey" = false →
       strContains s "Repository not found" = false → strContains s "does not exist" = false →
       strContains s "Could not resolve host" = true →
        parse_push_error s =
          "Could not connect to remote. Check your internet connection.") ∧
      (strContains s "Permission denied" = false → strContains s "publickey" = false →
       strContains s "Repository not found" = false → strContains s "does not exist" = false →
       strContains s "Could not resolve host" = false →
        parse_push_error s = strTrim s)) ∧
    parse_push_error "fatal: Could not resolve host: github.com" =
      "Could not connect to remote. Check your internet connection." := by
  constructor
  · intro s
    unfold parse_push_error
    refine ⟨?_, ?_, ?_, ?_⟩
    · intro h1
      rcases h1 with h | h <;> rw [if_pos (by rw [h]; simp)]
    · intro h1 h2 h3
      rw [if_neg (by rw [h1, h2]; simp)]
      rcases h3 with h | h <;> rw [if_pos (by rw [h]; simp)]
    · intro h1 h2 h3 h4 h5
      rw [if_neg (by rw [h1, h2]; simp), if_neg (by rw [h3, h4]; simp), if_pos h5]
    · intro h1 h2 h3 h4 h5
      rw [if_neg (by rw [h1, h2]; simp), if_neg (by rw [h3, h4]; simp),
        if_neg (by rw [h5]; simp)]
  · decide

/-- A push diagnostic carrying the not-found marker and no authentication
marker. -/
def pushNotFound : String := "ERROR: Repository not found."

/-- C9 witness: the not-found rung applies when the authentication rungs do
not match. -/
theorem c9_witness :
    parse_push_error pushNotFound =
      "Remote repository not found. Check the URL." :=
  (c9_theorem.1 pushNotFound).2.1 (by decide) (by decide)
    (Or.inl (by decide))

/-- C10: when the count query succeeds, tracking is reported even if the
output is malformed: a split that is not exactly two tab-fields leaves both
counts 0, and a field that fails integer parsing leaves that count 0 — the
aggregator is total here, no failure escapes. -/
theorem c10_theorem (env : StatusEnv) (o : Output)
    (hrepo : is_git_repo env = true)
    (hrem : hasRemoteOf env = true)
    (hbr : (currentBranchOf env).isSome = true)
    (hrl : env.revList = Except.ok o)
    (hs : o.success = true) :
    (get_status env).has_upstream = true ∧
    ((splitChar (strTrim o.stdout) '\t').length ≠ 2 →
      (get_status env).ahead_count = 0 ∧ (get_status env).behind_count = 0) ∧
    ((splitChar (strTrim o.stdout) '\t').length = 2 →
      (parseI32 ((splitChar (strTrim o.stdout) '\t').getD 0 "") = none →
        (get_status env).behind_count = 0) ∧
      (parseI32 ((splitChar (strTrim o.stdout) '\t').getD 1 "") = none →
        (get_status env).ahead_count = 0)) := by
  obtain ⟨h1, h2, h3, _⟩ := get_status_fields env hrepo
  rw [h1, h2, h3]
  rw [upstreamOf_cond_ok env o (by rw [hrem, hbr]; rfl) hrl, if_pos hs]
  by_cases hlen : (splitChar (strTrim o.stdout) '\t').length = 2
  · rw [if_pos hlen]
    refine ⟨rfl, fun hne => absurd hlen hne, fun _ => ⟨?_, ?_⟩⟩
    · intro hp
      rw [hp]
      rfl
    · intro hp
      rw [hp]
      rfl
  · rw [if_neg hlen]
    exact ⟨rfl, fun _ => ⟨rfl, rfl⟩, fun hl => absurd hl hlen⟩

/-- C10 witness: a successful count query with malformed (tab-free) output
still reports tracking and leaves both counts 0. -/
theorem c10_witness :
    (get_status envBadCounts).has_upstream = true ∧
    (get_status envBadCounts).ahead_count = 0 ∧
    (get_status envBadCounts).behind_count = 0 := by
  have h := c10_theorem envBadCounts (Output.mk true "garbage" "")
    (by decide) (by decide) (by decide) rfl rfl
  exact ⟨h.1, (h.2.1 (by decide)).1, (h.2.1 (by decide)).2⟩

end Scratch
